import Mathlib

set_option linter.unusedVariables false

/-!
Shallow embedding of the frame-lifecycle core of the Vulkan tutorial
renderer (src/src/app.hpp, src/lib/load/load.hpp): swap-surface
configuration selection, memory-type search, texture mip-level
computation, the model loader, sync-object creation, the draw_frame
iteration and swap-surface recreation.  Machine integers (uint32_t,
int32_t) are modelled as Nat; none of the embedded computations performs
arithmetic that can wrap at 32 bits.
-/

namespace VkTutorial

/-- Constant `max_frames_in_flight` from app.hpp:16. -/
def max_frames_in_flight : Nat := 2

/-- The two fields of `vk::SurfaceCapabilitiesKHR` read by
`choose_swap_min_image_count` (app.hpp:1421-1432); both are `uint32_t`. -/
structure SurfaceCapabilitiesKHR where
  minImageCount : Nat
  maxImageCount : Nat
deriving DecidableEq

/-- Function `choose_swap_min_image_count` (app.hpp:1421-1432): start from
`max(3, minImageCount)` and clamp down to `maxImageCount` when that is
nonzero and smaller. -/
def choose_swap_min_image_count (c : SurfaceCapabilitiesKHR) : Nat :=
  let min_image_count := max 3 c.minImageCount
  if 0 < c.maxImageCount ∧ c.maxImageCount < min_image_count then
    c.maxImageCount
  else
    min_image_count

/-- One entry of `vk::PhysicalDeviceMemoryProperties::memoryTypes`: only the
`propertyFlags` bitmask is read by `find_memory_type`; the flag set is
modelled as a `Nat` used bitwise. -/
structure MemoryType where
  propertyFlags : Nat
deriving DecidableEq

/-- Loop condition of `find_memory_type` (app.hpp:1644-1646) at index `i`:
bit `i` of `type_filter` is set (`(type_filter & (1 << i)) != 0`) and the
property flags of memory type `i` are a superset of `properties`
(`(memoryTypes[i].propertyFlags & properties) == properties`).  Array
indexing is modelled with `getD`; the loop only evaluates it in bounds. -/
def memory_type_qualifies (memoryTypes : List MemoryType)
    (type_filter properties i : Nat) : Prop :=
  type_filter.testBit i ∧
    Nat.land (memoryTypes.getD i ⟨0⟩).propertyFlags properties = properties

instance (memoryTypes : List MemoryType) (type_filter properties i : Nat) :
    Decidable (memory_type_qualifies memoryTypes type_filter properties i) :=
  inferInstanceAs (Decidable (_ ∧ _))

/-- The indexed for-loop of `find_memory_type` (app.hpp:1642-1650),
structurally recursive on the number of remaining indices: at index `i`
with `remaining` indices left, return `i` if it qualifies, else try
`i + 1`. -/
def find_memory_type_go (memoryTypes : List MemoryType)
    (type_filter properties : Nat) : Nat → Nat → Option Nat
  | _, 0 => none
  | i, remaining + 1 =>
      if memory_type_qualifies memoryTypes type_filter properties i then
        some i
      else
        find_memory_type_go memoryTypes type_filter properties (i + 1) remaining

/-- Function `find_memory_type` (app.hpp:1634-1657): scan indices
`0 .. memoryTypeCount - 1` in order and return the first qualifying one;
the `search_for_memory_type_failed` error return is modelled as `none`. -/
def find_memory_type (memoryTypes : List MemoryType)
    (type_filter properties : Nat) : Option Nat :=
  find_memory_type_go memoryTypes type_filter properties 0 memoryTypes.length

/-- The `vk::Format` values compared against by the embedded selection code;
all remaining formats are collapsed into `otherFormat` with a code. -/
inductive Format where
  | eB8G8R8A8Srgb
  | eR8G8B8A8Srgb
  | otherFormat (code : Nat)
deriving DecidableEq

/-- The `vk::ColorSpaceKHR` values compared against by the embedded
selection code. -/
inductive ColorSpaceKHR where
  | eSrgbNonlinear
  | otherColorSpace (code : Nat)
deriving DecidableEq

/-- Structure `vk::SurfaceFormatKHR`: a format together with a color
space. -/
structure SurfaceFormatKHR where
  format : Format
  colorSpace : ColorSpaceKHR
deriving DecidableEq

/-- Predicate of the `find_if` in `choose_swap_surface_format`
(app.hpp:1372-1377): format is `eB8G8R8A8Srgb` and color space is
`eSrgbNonlinear`. -/
def is_preferred_surface_format (f : SurfaceFormatKHR) : Bool :=
  decide (f.format = Format.eB8G8R8A8Srgb) &&
    decide (f.colorSpace = ColorSpaceKHR.eSrgbNonlinear)

/-- Function `choose_swap_surface_format` (app.hpp:1367-1383): the first
entry satisfying `is_preferred_surface_format` if any, otherwise
`available_formats[0]`.  The C++ indexes `[0]` unconditionally, which is
undefined on an empty span; the embedding returns `head?`, so the empty
case is `none`. -/
def choose_swap_surface_format (available_formats : List SurfaceFormatKHR) :
    Option SurfaceFormatKHR :=
  match available_formats.find? is_preferred_surface_format with
  | some f => some f
  | none => available_formats.head?

/-- Mip-level computation at app.hpp:622-624:
`floor(log2(max(w, h))) + 1`.  On positive integers `floor ∘ log2` is
exactly `Nat.log2` (the C++ computes it in double precision via
`std::log2`, which is exact for all `uint32` inputs of this form). -/
def texture_mip_levels (w h : Nat) : Nat :=
  Nat.log2 (max w h) + 1

/-- Vertex layout from vertex.hpp (glm vectors flattened to tuples):
position `vec3`, color `vec3`, texture coordinates `vec2`. -/
structure vertex where
  position : Float × Float × Float
  color : Float × Float × Float
  texture_coordinates : Float × Float

/-- One `tinyobj::index_t` as used by `model_obj`: the vertex and texcoord
indices of a face corner (the C++ casts them to `size_t` before use, so
they are modelled directly as `Nat`). -/
structure tinyobj_index_t where
  vertex_index : Nat
  texcoord_index : Nat

/-- The fields of `tinyobj::attrib_t` read by `model_obj`: flat float
arrays of positions and texture coordinates. -/
structure tinyobj_attrib_t where
  vertices : List Float
  texcoords : List Float

/-- One `tinyobj::shape_t` as used by `model_obj`: the flat list of face
corners `shape.mesh.indices`. -/
structure tinyobj_shape_t where
  mesh_indices : List tinyobj_index_t

/-- The vertex built for one face corner in the inner loop of `model_obj`
(load.hpp:96-117): position from the attribute array at
`3 * vertex_index + k`, texcoords at `2 * texcoord_index + k` with the
`v` coordinate flipped, and color defaulted to white.  Array accesses are
modelled with `getD` (tinyobj guarantees them in bounds). -/
def model_obj_vertex (attributes : tinyobj_attrib_t)
    (index : tinyobj_index_t) : vertex :=
  { position :=
      (attributes.vertices.getD (3 * index.vertex_index + 0) 0,
       attributes.vertices.getD (3 * index.vertex_index + 1) 0,
       attributes.vertices.getD (3 * index.vertex_index + 2) 0),
    color := (1.0, 1.0, 1.0),
    texture_coordinates :=
      (attributes.texcoords.getD (2 * index.texcoord_index + 0) 0,
       1.0 - attributes.texcoords.getD (2 * index.texcoord_index + 1) 0) }

/-- Loop body of `model_obj` (load.hpp:94-121) on the accumulated
`(vertices, indices)` pair: `vertices.push_back(v)` then
`indices.push_back(indices.size())`. -/
def model_obj_step (attributes : tinyobj_attrib_t)
    (state : List vertex × List Nat) (index : tinyobj_index_t) :
    List vertex × List Nat :=
  (state.1 ++ [model_obj_vertex attributes index],
   state.2 ++ [state.2.length])

/-- Inner loop of `model_obj` over one shape's face corners. -/
def model_obj_shape (attributes : tinyobj_attrib_t)
    (state : List vertex × List Nat) (shape : tinyobj_shape_t) :
    List vertex × List Nat :=
  shape.mesh_indices.foldl (model_obj_step attributes) state

/-- Function `model_obj` (load.hpp:75-125) after a successful
`tinyobj::LoadObj`: the nested loop over shapes and face corners,
appending to the caller-supplied `vertices` and `indices` vectors (empty
at the call site `load_model`, app.hpp:690-695). -/
def model_obj (attributes : tinyobj_attrib_t)
    (shapes : List tinyobj_shape_t) (vertices : List vertex)
    (indices : List Nat) : List vertex × List Nat :=
  shapes.foldl (model_obj_shape attributes) (vertices, indices)

/-- The `vk::Result` values distinguished by the frame loop
(app.hpp:1031-1133), plus representative error codes for the "any other
result" cases. -/
inductive VkResult where
  | eSuccess
  | eSuboptimalKHR
  | eErrorOutOfDateKHR
  | eTimeout
  | eNotReady
  | eErrorDeviceLost
  | eErrorSurfaceLostKHR
deriving DecidableEq

/-- The `apputils::error` values referenced by the embedded code.  The
enum definition matching the final app.hpp is not under src/ (src carries
an older apputils.hpp snapshot); the members are taken from their uses in
app.hpp and load.hpp. -/
inductive apputils_error where
  | glfw_window_creation_failed
  | glfw_surface_creation_failed
  | no_suitable_gpu
  | missing_queue_families
  | next_image_acquire_failed
  | queue_present_failed
  | wait_for_fences_failed
  | search_for_memory_type_failed
  | search_for_supported_format_failed
  | stb_load_failed
  | unsupported_layout_transition
  | tinyobj_load_failed
deriving DecidableEq

/-- Structure `vkutils::error` (vkutils.hpp:16-38): its `reason` variant of
a Vulkan result or an application error; the `source_location` field plays
no role in control flow and is dropped. -/
inductive vkerror where
  | vk (r : VkResult)
  | app (e : apputils_error)
deriving DecidableEq

/-- Vulkan fence semantics: `vkCreateFence` creates the fence signaled
exactly when the `eSignaled` create flag is passed. -/
structure Fence where
  signaled : Bool
deriving DecidableEq

/-- Vulkan binary-semaphore semantics: `vkCreateSemaphore` always creates
the semaphore unsignaled. -/
structure Semaphore where
  signaled : Bool
deriving DecidableEq

/-- Call `device_.createSemaphore({})` (app.hpp:1011, 1018): default create
info, initial state unsignaled. -/
def createSemaphore : Semaphore := ⟨false⟩

/-- Call `device_.createFence({...})` (app.hpp:1022-1023): signaled iff the
`eSignaled` flag is in the create info. -/
def createFence (signaled_flag : Bool) : Fence := ⟨signaled_flag⟩

/-- The three synchronization collections owned by the app
(app.hpp:2118-2120). -/
structure SyncObjects where
  presentation_complete_semaphores : List Semaphore
  render_finished_semaphores : List Semaphore
  in_flight_fences : List Fence
deriving DecidableEq

/-- Function `create_sync_objects` (app.hpp:1003-1029): one render-finished
semaphore per swapchain image (loop over `swapchain_images_.size()`), and
per frame slot (loop over `max_frames_in_flight`) one
presentation-complete semaphore plus one fence created with the
`eSignaled` flag. -/
def create_sync_objects (swapchain_image_count : Nat) : SyncObjects :=
  { render_finished_semaphores :=
      List.replicate swapchain_image_count createSemaphore,
    presentation_complete_semaphores :=
      List.replicate max_frames_in_flight createSemaphore,
    in_flight_fences :=
      List.replicate max_frames_in_flight (createFence true) }

/-- Vulkan semantics of `vkWaitForFences` on an already-signaled fence: it
returns `eSuccess` immediately; on an unsignaled fence it blocks
(modelled `none`). -/
def fence_wait_immediate (f : Fence) : Option VkResult :=
  if f.signaled then some VkResult.eSuccess else none

/-- The swapchain-related container state of the app tracked by the
embedding: whether `swapchain_` is live, the sizes of `swapchain_images_`
(app.hpp:2097) and `swapchain_image_views_`, and the sync-object
collections. -/
structure SwapchainState where
  swapchain_present : Bool
  swapchain_image_count : Nat
  swapchain_image_view_count : Nat
  sync : SyncObjects
deriving DecidableEq

/-- Function `cleanup_swapchain` (app.hpp:1169-1174): clears the image
views and drops the swapchain handle; it does not touch the sync
objects. -/
def cleanup_swapchain (s : SwapchainState) : SwapchainState :=
  { s with swapchain_image_view_count := 0, swapchain_present := false }

/-- Functions `create_swapchain`/`get_swapchain_images`
(app.hpp:312-335, 1461-1501) at the container level: a new
presentable-image chain is created and its images fetched;
`new_image_count` is the number of images `getImages` returns (chosen by
the implementation, at least the requested minimum). -/
def create_swapchain_state (s : SwapchainState) (new_image_count : Nat) :
    SwapchainState :=
  { s with swapchain_present := true,
           swapchain_image_count := new_image_count }

/-- Function `create_image_views` (app.hpp:338-356): clears the view list
and creates one view per swapchain image. -/
def create_image_views_state (s : SwapchainState) : SwapchainState :=
  { s with swapchain_image_view_count := s.swapchain_image_count }

/-- Function `create_sync_objects` (app.hpp:1003-1029) as a transition on
the tracked app state; called from `init_vulkan` only (app.hpp:141-142). -/
def create_sync_objects_state (s : SwapchainState) : SwapchainState :=
  { s with sync := create_sync_objects s.swapchain_image_count }

/-- A framebuffer size is usable when both dimensions are nonzero; the
while loop at app.hpp:1148-1152 spins until this holds. -/
def framebuffer_nonzero (p : Nat × Nat) : Prop :=
  p.1 ≠ 0 ∧ p.2 ≠ 0

instance (p : Nat × Nat) : Decidable (framebuffer_nonzero p) :=
  inferInstanceAs (Decidable (_ ∧ _))

/-- Environment of one `recreate_swapchain` call: the sequence of sizes
successive `glfwGetFramebufferSize` reads observe, the outcomes of the
chained device calls (`none` = success), and the image count of the newly
created chain. -/
structure RecreateEnv where
  framebuffer_sizes : Nat → Nat × Nat
  wait_idle_error : Option vkerror
  create_swapchain_error : Option vkerror
  new_image_count : Nat
  create_image_views_error : Option vkerror
  create_color_resources_error : Option vkerror
  create_depth_resources_error : Option vkerror

/-- Observable outcome of one `recreate_swapchain` call: how many zero
sizes were read before proceeding, the size at which it proceeded, and the
returned `expected` with the resulting container state on success. -/
structure RecreateTrace where
  zero_reads : Nat
  observed_size : Nat × Nat
  result : Except vkerror SwapchainState

/-- Function `recreate_swapchain` (app.hpp:1142-1167).  The while loop at
1145-1152 re-reads the framebuffer size (blocking on `glfwWaitEvents`)
until both dimensions are nonzero; `h` states that a nonzero size is
eventually observed (otherwise the C++ loop never exits).  It then chains
`device_.waitIdle()`, `cleanup_swapchain`, `create_swapchain`,
`create_image_views`, `create_color_resources` and
`create_depth_resources`, short-circuiting on the first error.  The depth
and multisample color targets are not part of the tracked container state,
so their rebuild steps contribute only their possible errors. -/
def recreate_swapchain (env : RecreateEnv) (s : SwapchainState)
    (h : ∃ k, framebuffer_nonzero (env.framebuffer_sizes k)) :
    RecreateTrace :=
  let k := Nat.find h
  let result : Except vkerror SwapchainState :=
    match env.wait_idle_error with
    | some e => Except.error e
    | none =>
      match env.create_swapchain_error with
      | some e => Except.error e
      | none =>
        match env.create_image_views_error with
        | some e => Except.error e
        | none =>
          match env.create_color_resources_error with
          | some e => Except.error e
          | none =>
            match env.create_depth_resources_error with
            | some e => Except.error e
            | none =>
              Except.ok (create_image_views_state
                (create_swapchain_state (cleanup_swapchain s)
                  env.new_image_count))
  ⟨k, env.framebuffer_sizes k, result⟩

/-- State read and written by `draw_frame`: the frame-slot counter
`frame_index_` (app.hpp:2140) and the resize flag `framebuffer_resized_`
(app.hpp:2149, set by the GLFW resize callback at app.hpp:86-93). -/
structure AppFrameState where
  frame_index : Nat
  framebuffer_resized : Bool
deriving DecidableEq

/-- Environment of one `draw_frame` call: the results of the Vulkan calls
it makes, in program order.  Operations returning
`expected<void, error>` are modelled as `Option vkerror` (`none` =
success).  `recreate_error` abstracts the outcome of a
`recreate_swapchain()` call made from within `draw_frame`; the state
effect of recreation is modelled separately by `recreate_swapchain`. -/
structure FrameEnv where
  fence_wait_result : VkResult
  acquire_result : VkResult
  image_index : Nat
  reset_fences_error : Option vkerror
  command_buffer_reset_error : Option vkerror
  record_error : Option vkerror
  submit_error : Option vkerror
  present_result : VkResult
  recreate_error : Option vkerror
deriving DecidableEq

/-- The value `recreate_swapchain()` returns to `draw_frame`. -/
def recreate_call_result (e : Option vkerror) : Except vkerror Unit :=
  match e with
  | some err => Except.error err
  | none => Except.ok ()

/-- Observable outcome of one `draw_frame` call: the returned
`expected<void, error>`, whether swap-surface recreation ran, whether the
slot's resources were reused in this iteration (its fence reset, then
command buffer reset and resubmitted), and the state afterwards. -/
structure DrawTrace where
  result : Except vkerror Unit
  recreated : Bool
  slot_reused : Bool
  state : AppFrameState

/-- Function `draw_frame` (app.hpp:1031-1133), translated branch by
branch: wait on the slot's fence (non-success is the
`wait_for_fences_failed` error); acquire (out-of-date returns
`recreate_swapchain()`, any other non-success/non-suboptimal result is the
`next_image_acquire_failed` error); reset the fence, reset the command
buffer, record and submit through the `and_then` chain; present
(suboptimal, out-of-date, or a pending `framebuffer_resized_` flag clears
the flag and returns `recreate_swapchain()`; any other non-success result
is the `queue_present_failed` error); on success advance
`frame_index_ = (frame_index_ + 1) % max_frames_in_flight`
(app.hpp:1130). -/
def draw_frame (env : FrameEnv) (s : AppFrameState) : DrawTrace :=
  if env.fence_wait_result ≠ VkResult.eSuccess then
    ⟨Except.error (vkerror.app apputils_error.wait_for_fences_failed),
      false, false, s⟩
  else if env.acquire_result = VkResult.eErrorOutOfDateKHR then
    ⟨recreate_call_result env.recreate_error, true, false, s⟩
  else if env.acquire_result ≠ VkResult.eSuccess ∧
      env.acquire_result ≠ VkResult.eSuboptimalKHR then
    ⟨Except.error (vkerror.app apputils_error.next_image_acquire_failed),
      false, false, s⟩
  else
    match env.reset_fences_error with
    | some e => ⟨Except.error e, false, false, s⟩
    | none =>
      match env.command_buffer_reset_error with
      | some e => ⟨Except.error e, false, true, s⟩
      | none =>
        match env.record_error with
        | some e => ⟨Except.error e, false, true, s⟩
        | none =>
          match env.submit_error with
          | some e => ⟨Except.error e, false, true, s⟩
          | none =>
            if env.present_result = VkResult.eSuboptimalKHR ∨
                env.present_result = VkResult.eErrorOutOfDateKHR ∨
                s.framebuffer_resized then
              ⟨recreate_call_result env.recreate_error, true, true,
                ⟨s.frame_index, false⟩⟩
            else if env.present_result ≠ VkResult.eSuccess then
              ⟨Except.error (vkerror.app apputils_error.queue_present_failed),
                false, true, s⟩
            else
              ⟨Except.ok (), false, true,
                ⟨(s.frame_index + 1) % max_frames_in_flight,
                  s.framebuffer_resized⟩⟩

/-- An iteration environment in which every Vulkan call made by
`draw_frame` succeeds and presentation returns `eSuccess`. -/
def frame_success_env (env : FrameEnv) : Prop :=
  env.fence_wait_result = VkResult.eSuccess ∧
  (env.acquire_result = VkResult.eSuccess ∨
    env.acquire_result = VkResult.eSuboptimalKHR) ∧
  env.reset_fences_error = none ∧
  env.command_buffer_reset_error = none ∧
  env.record_error = none ∧
  env.submit_error = none ∧
  env.present_result = VkResult.eSuccess

/-- A fully-successful frame environment used by concrete evaluations. -/
def all_success_frame_env : FrameEnv :=
  { fence_wait_result := VkResult.eSuccess,
    acquire_result := VkResult.eSuccess,
    image_index := 0,
    reset_fences_error := none,
    command_buffer_reset_error := none,
    record_error := none,
    submit_error := none,
    present_result := VkResult.eSuccess,
    recreate_error := none }

/-- A frame environment whose acquire reports out-of-date and whose
recreation succeeds. -/
def acquire_out_of_date_frame_env : FrameEnv :=
  { all_success_frame_env with
      acquire_result := VkResult.eErrorOutOfDateKHR }

/-- The app state at the start of the frame loop: `frame_index_` is
zero-initialized and no resize is pending (app.hpp:2140, 2149). -/
def initial_frame_state : AppFrameState :=
  { frame_index := 0, framebuffer_resized := false }

/-- The tracked container state right after `init_vulkan` when the initial
swapchain reported three images: swapchain and views built, then sync
objects sized from it (app.hpp:108-142). -/
def c3_initial_state : SwapchainState :=
  create_sync_objects_state (create_image_views_state
    (create_swapchain_state ⟨false, 0, 0, ⟨[], [], []⟩⟩ 3))

/-- A recreation environment whose device calls all succeed and whose new
chain reports four images, with a constant nonzero framebuffer size. -/
def c3_recreate_env : RecreateEnv :=
  { framebuffer_sizes := fun _ => (800, 600),
    wait_idle_error := none,
    create_swapchain_error := none,
    new_image_count := 4,
    create_image_views_error := none,
    create_color_resources_error := none,
    create_depth_resources_error := none }

/-- A recreation environment that first observes a zero framebuffer size
(minimized window), then 800×600; all device calls succeed and the new
chain reports three images. -/
def c4_recreate_env : RecreateEnv :=
  { framebuffer_sizes := fun k => if k = 0 then (0, 0) else (800, 600),
    wait_idle_error := none,
    create_swapchain_error := none,
    new_image_count := 3,
    create_image_views_error := none,
    create_color_resources_error := none,
    create_depth_resources_error := none }

end VkTutorial

namespace VkTutorial

/-! Theorems about the selection functions. -/

/-- C5 counterexample: the claim's bound `max(3, minImageCount) ≤ count`
fails for capabilities with `minImageCount = 1`, `maxImageCount = 2`
(a valid capabilities value with `maxImageCount > 0`): the code clamps the
count down to `maxImageCount = 2`, below `max(3, 1) = 3`. -/
theorem choose_swap_min_image_count_counterexample :
    0 < (SurfaceCapabilitiesKHR.mk 1 2).maxImageCount ∧
    choose_swap_min_image_count (SurfaceCapabilitiesKHR.mk 1 2) = 2 ∧
    ¬ (max 3 (SurfaceCapabilitiesKHR.mk 1 2).minImageCount ≤
        choose_swap_min_image_count (SurfaceCapabilitiesKHR.mk 1 2)) := by
  decide

/-- C5 (amended): image-count selection is a pure function of the
capabilities (recomputation yields the same count); when
`maxImageCount = 0` the count is `max 3 minImageCount`; when
`maxImageCount > 0` the count is `min (max 3 minImageCount) maxImageCount`,
hence `count ≤ maxImageCount`, and the lower bound
`max 3 minImageCount ≤ count` holds exactly when
`max 3 minImageCount ≤ maxImageCount`. -/
theorem choose_swap_min_image_count_spec (c : SurfaceCapabilitiesKHR) :
    (c.maxImageCount = 0 →
      choose_swap_min_image_count c = max 3 c.minImageCount) ∧
    (0 < c.maxImageCount →
      choose_swap_min_image_count c =
        min (max 3 c.minImageCount) c.maxImageCount) ∧
    (0 < c.maxImageCount →
      choose_swap_min_image_count c ≤ c.maxImageCount) ∧
    (max 3 c.minImageCount ≤ c.maxImageCount →
      max 3 c.minImageCount ≤ choose_swap_min_image_count c) := by
  unfold choose_swap_min_image_count
  simp only [Nat.max_def, Nat.min_def]
  split_ifs <;> omega

/-- Witness for `choose_swap_min_image_count_spec` at capabilities
`{minImageCount := 2, maxImageCount := 5}`. -/
theorem choose_swap_min_image_count_spec_witness :
    choose_swap_min_image_count (SurfaceCapabilitiesKHR.mk 2 5) =
      min (max 3 2) 5 :=
  (choose_swap_min_image_count_spec (SurfaceCapabilitiesKHR.mk 2 5)).2.1
    (by decide)

/-- Helper: the scan returns `none` when no index in the scanned window
qualifies. -/
theorem find_memory_type_go_eq_none (memoryTypes : List MemoryType)
    (type_filter properties : Nat) :
    ∀ remaining i,
      (∀ k, i ≤ k → k < i + remaining →
        ¬ memory_type_qualifies memoryTypes type_filter properties k) →
      find_memory_type_go memoryTypes type_filter properties i remaining =
        none := by
  intro remaining
  induction remaining with
  | zero => intro i _; rfl
  | succ r ih =>
      intro i hnone
      unfold find_memory_type_go
      rw [if_neg (hnone i (Nat.le_refl i) (by omega))]
      exact ih (i + 1) (fun k hk1 hk2 => hnone k (by omega) (by omega))

/-- Helper: when some index in the scanned window qualifies, the scan
returns the least such index. -/
theorem find_memory_type_go_eq_some (memoryTypes : List MemoryType)
    (type_filter properties : Nat) :
    ∀ remaining i k, i ≤ k → k < i + remaining →
      memory_type_qualifies memoryTypes type_filter properties k →
      ∃ j, find_memory_type_go memoryTypes type_filter properties i remaining
            = some j ∧
        i ≤ j ∧ j < i + remaining ∧
        memory_type_qualifies memoryTypes type_filter properties j ∧
        ∀ m, i ≤ m → m < j →
          ¬ memory_type_qualifies memoryTypes type_filter properties m := by
  intro remaining
  induction remaining with
  | zero => intro i k h1 h2 _; omega
  | succ r ih =>
      intro i k h1 h2 hq
      by_cases hi : memory_type_qualifies memoryTypes type_filter properties i
      · refine ⟨i, ?_, Nat.le_refl i, by omega, hi, fun m hm1 hm2 _ => by omega⟩
        unfold find_memory_type_go
        rw [if_pos hi]
      · have hik : i + 1 ≤ k := by
          rcases Nat.eq_or_lt_of_le h1 with h | h
          · exact absurd (h ▸ hq) hi
          · exact h
        obtain ⟨j, hfind, hj1, hj2, hj3, hj4⟩ :=
          ih (i + 1) k hik (by omega) hq
        refine ⟨j, ?_, by omega, by omega, hj3, ?_⟩
        · unfold find_memory_type_go
          rw [if_neg hi]
          exact hfind
        · intro m hm1 hm2
          rcases Nat.eq_or_lt_of_le hm1 with h | h
          · exact h ▸ hi
          · exact hj4 m h hm2

/-- C6: whenever at least one memory-type index qualifies (its bit is set
in the filter and its property flags are a superset of the request),
`find_memory_type` returns the lowest such index; when no index in range
qualifies, it returns the no-suitable-memory-type error (`none`). -/
theorem find_memory_type_spec (memoryTypes : List MemoryType)
    (type_filter properties : Nat) :
    ((∃ i, i < memoryTypes.length ∧
        memory_type_qualifies memoryTypes type_filter properties i) →
      ∃ i, find_memory_type memoryTypes type_filter properties = some i ∧
        i < memoryTypes.length ∧
        memory_type_qualifies memoryTypes type_filter properties i ∧
        ∀ j, j < i →
          ¬ memory_type_qualifies memoryTypes type_filter properties j) ∧
    ((∀ i, i < memoryTypes.length →
        ¬ memory_type_qualifies memoryTypes type_filter properties i) →
      find_memory_type memoryTypes type_filter properties = none) := by
  constructor
  · rintro ⟨k, hk, hq⟩
    obtain ⟨j, hfind, _, hj2, hj3, hj4⟩ :=
      find_memory_type_go_eq_some memoryTypes type_filter properties
        memoryTypes.length 0 k (Nat.zero_le k) (by omega) hq
    exact ⟨j, hfind, by omega, hj3, fun m hm => hj4 m (Nat.zero_le m) hm⟩
  · intro hnone
    exact find_memory_type_go_eq_none memoryTypes type_filter properties
      memoryTypes.length 0 (fun k _ hk => hnone k (by omega))

/-- Witness for `find_memory_type_spec`: among property-flag sets
`[1, 3, 3]` with filter `6` (bits 1 and 2) and request `3`, index 1 is the
lowest qualifying index and is returned. -/
theorem find_memory_type_spec_witness :
    ∃ i, find_memory_type [⟨1⟩, ⟨3⟩, ⟨3⟩] 6 3 = some i ∧
      i < ([⟨1⟩, ⟨3⟩, ⟨3⟩] : List MemoryType).length ∧
      memory_type_qualifies [⟨1⟩, ⟨3⟩, ⟨3⟩] 6 3 i ∧
      ∀ j, j < i → ¬ memory_type_qualifies [⟨1⟩, ⟨3⟩, ⟨3⟩] 6 3 j :=
  (find_memory_type_spec [⟨1⟩, ⟨3⟩, ⟨3⟩] 6 3).1 ⟨1, by decide, by decide⟩

/-- Helper: an entry satisfies the preferred-format predicate exactly when
it is the BGRA8-sRGB, sRGB-nonlinear entry. -/
theorem is_preferred_surface_format_iff (f : SurfaceFormatKHR) :
    is_preferred_surface_format f = true ↔
      f = SurfaceFormatKHR.mk Format.eB8G8R8A8Srgb
            ColorSpaceKHR.eSrgbNonlinear := by
  cases f with
  | mk fmt cs =>
      simp [is_preferred_surface_format, SurfaceFormatKHR.mk.injEq]

/-- C7: `choose_swap_surface_format` returns the BGRA8-sRGB entry with
sRGB-nonlinear color space whenever it occurs anywhere in the list, and
otherwise returns the first element of the list. -/
theorem choose_swap_surface_format_spec (l : List SurfaceFormatKHR) :
    (SurfaceFormatKHR.mk Format.eB8G8R8A8Srgb ColorSpaceKHR.eSrgbNonlinear
        ∈ l →
      choose_swap_surface_format l =
        some (SurfaceFormatKHR.mk Format.eB8G8R8A8Srgb
          ColorSpaceKHR.eSrgbNonlinear)) ∧
    (SurfaceFormatKHR.mk Format.eB8G8R8A8Srgb ColorSpaceKHR.eSrgbNonlinear
        ∉ l →
      ∀ x xs, l = x :: xs → choose_swap_surface_format l = some x) := by
  constructor
  · intro hmem
    cases hfind : l.find? is_preferred_surface_format with
    | none =>
        exfalso
        have := List.find?_eq_none.mp hfind _ hmem
        simp [is_preferred_surface_format_iff] at this
    | some f =>
        have hf := List.find?_some hfind
        rw [is_preferred_surface_format_iff] at hf
        simp [choose_swap_surface_format, hfind, hf]
  · intro hnot x xs hl
    subst hl
    have hfind : (x :: xs).find? is_preferred_surface_format = none := by
      rw [List.find?_eq_none]
      intro a ha hpa
      exact hnot ((is_preferred_surface_format_iff a).mp hpa ▸ ha)
    simp [choose_swap_surface_format, hfind]

/-- Witness for `choose_swap_surface_format_spec`: in a two-element list
whose second entry is the preferred one, that entry is returned
(position-independent). -/
theorem choose_swap_surface_format_spec_witness :
    choose_swap_surface_format
        [SurfaceFormatKHR.mk (Format.otherFormat 7) ColorSpaceKHR.eSrgbNonlinear,
         SurfaceFormatKHR.mk Format.eB8G8R8A8Srgb ColorSpaceKHR.eSrgbNonlinear]
      = some (SurfaceFormatKHR.mk Format.eB8G8R8A8Srgb
          ColorSpaceKHR.eSrgbNonlinear) :=
  (choose_swap_surface_format_spec
    [SurfaceFormatKHR.mk (Format.otherFormat 7) ColorSpaceKHR.eSrgbNonlinear,
     SurfaceFormatKHR.mk Format.eB8G8R8A8Srgb ColorSpaceKHR.eSrgbNonlinear]).1
    (by decide)

/-- C8: for positive texture dimensions the computed mip-level count is
`Nat.log 2 (max w h) + 1`, and `Nat.log 2` is floor-log₂, witnessed by the
power sandwich `2 ^ (levels - 1) ≤ max w h < 2 ^ levels`. -/
theorem texture_mip_levels_spec (w h : Nat) (hw : 0 < w) (hh : 0 < h) :
    texture_mip_levels w h = Nat.log 2 (max w h) + 1 ∧
    2 ^ (texture_mip_levels w h - 1) ≤ max w h ∧
    max w h < 2 ^ texture_mip_levels w h := by
  have hmax : max w h ≠ 0 := by
    have h1 := Nat.le_max_left w h
    have h2 := Nat.le_max_right w h
    omega
  have h1 : texture_mip_levels w h = Nat.log 2 (max w h) + 1 := by
    unfold texture_mip_levels
    rw [Nat.log2_eq_log_two]
  refine ⟨h1, ?_, ?_⟩
  · rw [h1]
    simpa using Nat.pow_log_le_self 2 hmax
  · rw [h1]
    exact Nat.lt_pow_succ_log_self (by norm_num) _

/-- Witness for `texture_mip_levels_spec` at 512×512, plus the concrete
values named by the claim: 512×512 → 10, 500×500 → 9, 1×1 → 1. -/
theorem texture_mip_levels_spec_witness :
    (texture_mip_levels 512 512 = Nat.log 2 (max 512 512) + 1 ∧
      2 ^ (texture_mip_levels 512 512 - 1) ≤ max 512 512 ∧
      max 512 512 < 2 ^ texture_mip_levels 512 512) ∧
    texture_mip_levels 512 512 = 10 ∧
    texture_mip_levels 500 500 = 9 ∧
    texture_mip_levels 1 1 = 1 := by
  have e512 : Nat.log 2 512 = 9 :=
    Nat.log_eq_of_pow_le_of_lt_pow (by norm_num) (by norm_num)
  have e500 : Nat.log 2 500 = 8 :=
    Nat.log_eq_of_pow_le_of_lt_pow (by norm_num) (by norm_num)
  have e1 : Nat.log 2 1 = 0 :=
    Nat.log_eq_of_pow_le_of_lt_pow (by norm_num) (by norm_num)
  have m512 : (max 512 512 : Nat) = 512 := rfl
  have m500 : (max 500 500 : Nat) = 500 := rfl
  have m1 : (max 1 1 : Nat) = 1 := rfl
  have s512 := texture_mip_levels_spec 512 512 (by norm_num) (by norm_num)
  have s500 := texture_mip_levels_spec 500 500 (by norm_num) (by norm_num)
  have s1 := texture_mip_levels_spec 1 1 (by norm_num) (by norm_num)
  refine ⟨s512, ?_, ?_, ?_⟩
  · exact s512.1.trans (by rw [m512, e512])
  · exact s500.1.trans (by rw [m500, e500])
  · exact s1.1.trans (by rw [m1, e1])

/-- Helper: the inner corner loop of the loader keeps `indices` equal to
`range (length vertices)`, adds one vertex per corner, and colors every
appended vertex white. -/
theorem model_obj_corners_invariant (attributes : tinyobj_attrib_t) :
    ∀ (ixs : List tinyobj_index_t) (s : List vertex × List Nat),
      s.2 = List.range s.1.length →
      (∀ v ∈ s.1, v.color = (1.0, 1.0, 1.0)) →
      (ixs.foldl (model_obj_step attributes) s).2 =
          List.range (ixs.foldl (model_obj_step attributes) s).1.length ∧
        (ixs.foldl (model_obj_step attributes) s).1.length =
          s.1.length + ixs.length ∧
        ∀ v ∈ (ixs.foldl (model_obj_step attributes) s).1,
          v.color = (1.0, 1.0, 1.0) := by
  intro ixs
  induction ixs with
  | nil => intro s h1 h2; exact ⟨h1, by simp, h2⟩
  | cons ix rest ih =>
      intro s h1 h2
      have hstep2 : (model_obj_step attributes s ix).2 =
          List.range (model_obj_step attributes s ix).1.length := by
        simp [model_obj_step, h1, List.range_succ]
      have hstepc : ∀ v ∈ (model_obj_step attributes s ix).1,
          v.color = (1.0, 1.0, 1.0) := by
        intro v hv
        simp [model_obj_step] at hv
        rcases hv with hv | hv
        · exact h2 v hv
        · subst hv; rfl
      obtain ⟨t2, tlen, tc⟩ := ih (model_obj_step attributes s ix) hstep2 hstepc
      refine ⟨by simpa using t2, ?_, by simpa using tc⟩
      have : (model_obj_step attributes s ix).1.length = s.1.length + 1 := by
        simp [model_obj_step]
      simp only [List.foldl_cons] at tlen ⊢
      rw [tlen, this]
      simp [Nat.add_assoc, Nat.add_comm 1 rest.length]

/-- Helper: the outer shape loop of the loader preserves the same
invariant, adding one vertex per corner of every shape. -/
theorem model_obj_shapes_invariant (attributes : tinyobj_attrib_t) :
    ∀ (shapes : List tinyobj_shape_t) (s : List vertex × List Nat),
      s.2 = List.range s.1.length →
      (∀ v ∈ s.1, v.color = (1.0, 1.0, 1.0)) →
      (shapes.foldl (model_obj_shape attributes) s).2 =
          List.range (shapes.foldl (model_obj_shape attributes) s).1.length ∧
        (shapes.foldl (model_obj_shape attributes) s).1.length =
          s.1.length + (shapes.map (fun sh => sh.mesh_indices.length)).sum ∧
        ∀ v ∈ (shapes.foldl (model_obj_shape attributes) s).1,
          v.color = (1.0, 1.0, 1.0) := by
  intro shapes
  induction shapes with
  | nil => intro s h1 h2; exact ⟨h1, by simp, h2⟩
  | cons sh rest ih =>
      intro s h1 h2
      obtain ⟨g2, glen, gc⟩ :=
        model_obj_corners_invariant attributes sh.mesh_indices s h1 h2
      obtain ⟨t2, tlen, tc⟩ := ih (model_obj_shape attributes s sh) g2 gc
      refine ⟨by simpa using t2, ?_, by simpa using tc⟩
      simp only [List.foldl_cons] at tlen ⊢
      rw [tlen]
      unfold model_obj_shape
      rw [glen]
      simp [Nat.add_assoc]

/-- C9: starting from the empty vertex and index vectors (as at the
`load_model` call site), the loader emits the index sequence
`0, 1, ..., len-1` with no deduplication, produces arrays of equal length,
appends exactly one vertex per loaded face corner, and colors every vertex
white. -/
theorem model_obj_spec (attributes : tinyobj_attrib_t)
    (shapes : List tinyobj_shape_t) :
    (model_obj attributes shapes [] []).2 =
      List.range (model_obj attributes shapes [] []).1.length ∧
    (model_obj attributes shapes [] []).2.length =
      (model_obj attributes shapes [] []).1.length ∧
    (model_obj attributes shapes [] []).1.length =
      (shapes.map (fun sh => sh.mesh_indices.length)).sum ∧
    ∀ v ∈ (model_obj attributes shapes [] []).1,
      v.color = (1.0, 1.0, 1.0) := by
  obtain ⟨h1, h2, h3⟩ :=
    model_obj_shapes_invariant attributes shapes ([], []) (by simp) (by simp)
  refine ⟨by simpa using h1, ?_, by simpa using h2, by simpa using h3⟩
  have h1m : (model_obj attributes shapes [] []).2 =
      List.range (model_obj attributes shapes [] []).1.length := by
    simpa using h1
  rw [h1m, List.length_range]

/-- Witness for `model_obj_spec`: the single vertex produced for a
one-corner model is colored white. -/
theorem model_obj_spec_witness :
    (model_obj_vertex (tinyobj_attrib_t.mk [] [])
        (tinyobj_index_t.mk 0 0)).color = (1.0, 1.0, 1.0) :=
  (model_obj_spec (tinyobj_attrib_t.mk [] [])
      [tinyobj_shape_t.mk [tinyobj_index_t.mk 0 0]]).2.2.2
    _ (List.Mem.head _)

/-- C10: every per-slot in-flight fence is created in the signaled state
(there are `max_frames_in_flight` of them), so the first wait on any
slot's fence returns `eSuccess` immediately, while every semaphore —
presentation-complete and render-finished alike — is created
unsignaled. -/
theorem in_flight_fences_created_signaled_spec (n : Nat) :
    (∀ f ∈ (create_sync_objects n).in_flight_fences,
      f.signaled = true ∧
        fence_wait_immediate f = some VkResult.eSuccess) ∧
    (create_sync_objects n).in_flight_fences.length =
      max_frames_in_flight ∧
    (∀ sem ∈ (create_sync_objects n).presentation_complete_semaphores,
      sem.signaled = false) ∧
    (∀ sem ∈ (create_sync_objects n).render_finished_semaphores,
      sem.signaled = false) := by
  refine ⟨?_, by simp [create_sync_objects], ?_, ?_⟩
  · intro f hf
    simp only [create_sync_objects] at hf
    rw [List.eq_of_mem_replicate hf]
    exact ⟨rfl, rfl⟩
  · intro sem hsem
    simp only [create_sync_objects] at hsem
    rw [List.eq_of_mem_replicate hsem]
    rfl
  · intro sem hsem
    simp only [create_sync_objects] at hsem
    rw [List.eq_of_mem_replicate hsem]
    rfl

/-- Witness for `in_flight_fences_created_signaled_spec` at a
three-image chain, applied to the first slot's fence. -/
theorem in_flight_fences_created_signaled_spec_witness :
    (createFence true).signaled = true ∧
    fence_wait_immediate (createFence true) = some VkResult.eSuccess :=
  (in_flight_fences_created_signaled_spec 3).1 (createFence true)
    (by decide)

/-- C3 counterexample: starting from a bootstrapped state with three
presentable images (so three render-finished semaphores), a successful
recreation whose new chain reports four images leaves the render-finished
semaphore collection at its old size three, which no longer equals the
current presentable-image count four: recreation does not rebuild the
collection. -/
theorem render_finished_semaphores_not_recreated_counterexample :
    (recreate_swapchain c3_recreate_env c3_initial_state
        ⟨0, by decide⟩).result =
      Except.ok (create_image_views_state (create_swapchain_state
        (cleanup_swapchain c3_initial_state) 4)) ∧
    (create_image_views_state (create_swapchain_state
        (cleanup_swapchain c3_initial_state) 4)).swapchain_image_count
      = 4 ∧
    (create_image_views_state (create_swapchain_state
        (cleanup_swapchain c3_initial_state)
          4)).sync.render_finished_semaphores.length = 3 ∧
    (3 : Nat) ≠ 4 :=
  ⟨rfl, rfl, rfl, by decide⟩

/-- C3 (amended): `create_sync_objects` sizes the render-finished
semaphore collection to the presentable-image set (one per image, and one
presentation-complete semaphore per frame slot), but the collection is
created only at bootstrap: a successful `recreate_swapchain` leaves the
sync objects untouched while replacing the image set, so the collection's
size equals the current image count only when recreation reproduces the
same count. -/
theorem render_finished_semaphores_sizing_spec (s : SwapchainState)
    (env : RecreateEnv)
    (h : ∃ k, framebuffer_nonzero (env.framebuffer_sizes k))
    (h1 : env.wait_idle_error = none)
    (h2 : env.create_swapchain_error = none)
    (h3 : env.create_image_views_error = none)
    (h4 : env.create_color_resources_error = none)
    (h5 : env.create_depth_resources_error = none) :
    (create_sync_objects_state s).sync.render_finished_semaphores.length
        = s.swapchain_image_count ∧
    (create_sync_objects_state
        s).sync.presentation_complete_semaphores.length
      = max_frames_in_flight ∧
    (recreate_swapchain env s h).result =
      Except.ok (create_image_views_state (create_swapchain_state
        (cleanup_swapchain s) env.new_image_count)) ∧
    (create_image_views_state (create_swapchain_state (cleanup_swapchain s)
        env.new_image_count)).sync = s.sync ∧
    (create_image_views_state (create_swapchain_state (cleanup_swapchain s)
        env.new_image_count)).swapchain_image_count
      = env.new_image_count := by
  refine ⟨?_, ?_, ?_, rfl, rfl⟩
  · simp [create_sync_objects_state, create_sync_objects]
  · simp [create_sync_objects_state, create_sync_objects]
  · simp [recreate_swapchain, h1, h2, h3, h4, h5]

/-- Witness for `render_finished_semaphores_sizing_spec` at the
bootstrapped three-image state and an all-success recreation reporting
four images. -/
theorem render_finished_semaphores_sizing_spec_witness :
    (create_sync_objects_state
        c3_initial_state).sync.render_finished_semaphores.length
      = c3_initial_state.swapchain_image_count ∧
    (create_sync_objects_state
        c3_initial_state).sync.presentation_complete_semaphores.length
      = max_frames_in_flight ∧
    (recreate_swapchain c3_recreate_env c3_initial_state
        ⟨0, by decide⟩).result =
      Except.ok (create_image_views_state (create_swapchain_state
        (cleanup_swapchain c3_initial_state)
        c3_recreate_env.new_image_count)) ∧
    (create_image_views_state (create_swapchain_state
        (cleanup_swapchain c3_initial_state)
        c3_recreate_env.new_image_count)).sync = c3_initial_state.sync ∧
    (create_image_views_state (create_swapchain_state
        (cleanup_swapchain c3_initial_state)
        c3_recreate_env.new_image_count)).swapchain_image_count
      = c3_recreate_env.new_image_count :=
  render_finished_semaphores_sizing_spec c3_initial_state c3_recreate_env
    ⟨0, by decide⟩ rfl rfl rfl rfl rfl

/-- C4: recreation never proceeds against a zero-sized target: the size it
proceeds with is nonzero in both dimensions, it is the first such size
observed (every earlier read saw a zero dimension and only kept polling),
and once a nonzero size is observed recreation proceeds normally — with
all device calls succeeding it returns the rebuilt state, not an error,
regardless of how many zero sizes preceded. -/
theorem recreate_swapchain_blocks_until_nonzero_spec (env : RecreateEnv)
    (s : SwapchainState)
    (h : ∃ k, framebuffer_nonzero (env.framebuffer_sizes k)) :
    framebuffer_nonzero (recreate_swapchain env s h).observed_size ∧
    (recreate_swapchain env s h).observed_size =
      env.framebuffer_sizes (recreate_swapchain env s h).zero_reads ∧
    (∀ i, i < (recreate_swapchain env s h).zero_reads →
      ¬ framebuffer_nonzero (env.framebuffer_sizes i)) ∧
    (env.wait_idle_error = none → env.create_swapchain_error = none →
      env.create_image_views_error = none →
      env.create_color_resources_error = none →
      env.create_depth_resources_error = none →
      (recreate_swapchain env s h).result = Except.ok
        (create_image_views_state (create_swapchain_state
          (cleanup_swapchain s) env.new_image_count))) := by
  refine ⟨Nat.find_spec h, rfl, ?_, ?_⟩
  · intro i hi
    exact Nat.find_min h hi
  · intro h1 h2 h3 h4 h5
    simp [recreate_swapchain, h1, h2, h3, h4, h5]

/-- Witness for `recreate_swapchain_blocks_until_nonzero_spec`: the window
reports 0×0 once (minimized), then 800×600; recreation proceeds at the
800×600 reading. -/
theorem recreate_swapchain_blocks_until_nonzero_spec_witness :
    framebuffer_nonzero (recreate_swapchain c4_recreate_env
      c3_initial_state ⟨1, by decide⟩).observed_size ∧
    (recreate_swapchain c4_recreate_env c3_initial_state
        ⟨1, by decide⟩).observed_size =
      c4_recreate_env.framebuffer_sizes (recreate_swapchain c4_recreate_env
        c3_initial_state ⟨1, by decide⟩).zero_reads ∧
    (∀ i, i < (recreate_swapchain c4_recreate_env c3_initial_state
        ⟨1, by decide⟩).zero_reads →
      ¬ framebuffer_nonzero (c4_recreate_env.framebuffer_sizes i)) ∧
    (c4_recreate_env.wait_idle_error = none →
      c4_recreate_env.create_swapchain_error = none →
      c4_recreate_env.create_image_views_error = none →
      c4_recreate_env.create_color_resources_error = none →
      c4_recreate_env.create_depth_resources_error = none →
      (recreate_swapchain c4_recreate_env c3_initial_state
          ⟨1, by decide⟩).result = Except.ok
        (create_image_views_state (create_swapchain_state
          (cleanup_swapchain c3_initial_state)
          c4_recreate_env.new_image_count))) :=
  recreate_swapchain_blocks_until_nonzero_spec c4_recreate_env
    c3_initial_state ⟨1, by decide⟩

/-- C1: with the fence wait and the intermediate chained operations
succeeding, recreation runs exactly for an out-of-date acquire or for a
suboptimal/out-of-date present or a pending resize flag; when recreation
runs and succeeds the iteration returns ok and the loop resumes; any other
non-success non-suboptimal acquire result is the fatal
`next_image_acquire_failed` error without recreating, and any other
non-success present result (without a pending resize) is the fatal
`queue_present_failed` error without recreating. -/
theorem draw_frame_recovery_spec (env : FrameEnv) (s : AppFrameState)
    (hfence : env.fence_wait_result = VkResult.eSuccess)
    (hreset : env.reset_fences_error = none)
    (hcmd : env.command_buffer_reset_error = none)
    (hrec : env.record_error = none)
    (hsub : env.submit_error = none) :
    ((draw_frame env s).recreated = true ↔
      (env.acquire_result = VkResult.eErrorOutOfDateKHR ∨
        ((env.acquire_result = VkResult.eSuccess ∨
            env.acquire_result = VkResult.eSuboptimalKHR) ∧
          (env.present_result = VkResult.eSuboptimalKHR ∨
            env.present_result = VkResult.eErrorOutOfDateKHR ∨
            s.framebuffer_resized = true)))) ∧
    ((draw_frame env s).recreated = true → env.recreate_error = none →
      (draw_frame env s).result = Except.ok ()) ∧
    (env.acquire_result ≠ VkResult.eSuccess →
      env.acquire_result ≠ VkResult.eSuboptimalKHR →
      env.acquire_result ≠ VkResult.eErrorOutOfDateKHR →
      (draw_frame env s).result =
          Except.error
            (vkerror.app apputils_error.next_image_acquire_failed) ∧
        (draw_frame env s).recreated = false) ∧
    ((env.acquire_result = VkResult.eSuccess ∨
        env.acquire_result = VkResult.eSuboptimalKHR) →
      env.present_result ≠ VkResult.eSuccess →
      env.present_result ≠ VkResult.eSuboptimalKHR →
      env.present_result ≠ VkResult.eErrorOutOfDateKHR →
      s.framebuffer_resized = false →
      (draw_frame env s).result =
          Except.error (vkerror.app apputils_error.queue_present_failed) ∧
        (draw_frame env s).recreated = false) := by
  obtain ⟨f, a, ii, r1, r2, r3, r4, p, re⟩ := env
  dsimp only at hfence hreset hcmd hrec hsub
  subst hfence hreset hcmd hrec hsub
  obtain ⟨fi, fr⟩ := s
  cases a <;> cases p <;> cases fr <;>
    (simp [draw_frame, recreate_call_result] <;>
      (intro hre; subst hre; rfl))

/-- Witness for `draw_frame_recovery_spec` at the all-success environment
and the initial frame state. -/
theorem draw_frame_recovery_spec_witness :
    ((draw_frame all_success_frame_env initial_frame_state).recreated
        = true ↔
      (all_success_frame_env.acquire_result = VkResult.eErrorOutOfDateKHR ∨
        ((all_success_frame_env.acquire_result = VkResult.eSuccess ∨
            all_success_frame_env.acquire_result
              = VkResult.eSuboptimalKHR) ∧
          (all_success_frame_env.present_result = VkResult.eSuboptimalKHR ∨
            all_success_frame_env.present_result
              = VkResult.eErrorOutOfDateKHR ∨
            initial_frame_state.framebuffer_resized = true)))) ∧
    ((draw_frame all_success_frame_env initial_frame_state).recreated
        = true →
      all_success_frame_env.recreate_error = none →
      (draw_frame all_success_frame_env initial_frame_state).result
        = Except.ok ()) ∧
    (all_success_frame_env.acquire_result ≠ VkResult.eSuccess →
      all_success_frame_env.acquire_result ≠ VkResult.eSuboptimalKHR →
      all_success_frame_env.acquire_result ≠ VkResult.eErrorOutOfDateKHR →
      (draw_frame all_success_frame_env initial_frame_state).result =
          Except.error
            (vkerror.app apputils_error.next_image_acquire_failed) ∧
        (draw_frame all_success_frame_env initial_frame_state).recreated
          = false) ∧
    ((all_success_frame_env.acquire_result = VkResult.eSuccess ∨
        all_success_frame_env.acquire_result = VkResult.eSuboptimalKHR) →
      all_success_frame_env.present_result ≠ VkResult.eSuccess →
      all_success_frame_env.present_result ≠ VkResult.eSuboptimalKHR →
      all_success_frame_env.present_result ≠ VkResult.eErrorOutOfDateKHR →
      initial_frame_state.framebuffer_resized = false →
      (draw_frame all_success_frame_env initial_frame_state).result =
          Except.error (vkerror.app apputils_error.queue_present_failed) ∧
        (draw_frame all_success_frame_env initial_frame_state).recreated
          = false) :=
  draw_frame_recovery_spec all_success_frame_env initial_frame_state
    rfl rfl rfl rfl rfl

/-- C2 counterexample: the frame counter is not advanced at the end of
every frame-loop iteration.  An iteration whose acquire reports
out-of-date recreates the swap-surface, returns ok (so the loop resumes)
and leaves `frame_index_` unchanged; following it with one fully
successful iteration gives two draw_frame iterations after which
`frame_counter mod 2` is 1, not its initial value 0. -/
theorem draw_frame_rotation_counterexample :
    (draw_frame acquire_out_of_date_frame_env initial_frame_state).result
      = Except.ok () ∧
    (draw_frame acquire_out_of_date_frame_env
        initial_frame_state).state.frame_index
      = initial_frame_state.frame_index ∧
    (draw_frame all_success_frame_env
        (draw_frame acquire_out_of_date_frame_env
          initial_frame_state).state).result = Except.ok () ∧
    (draw_frame all_success_frame_env
        (draw_frame acquire_out_of_date_frame_env
          initial_frame_state).state).state.frame_index
        % max_frames_in_flight = 1 ∧
    initial_frame_state.frame_index % max_frames_in_flight = 0 ∧
    (1 : Nat) ≠ 0 :=
  ⟨rfl, rfl, rfl, rfl, rfl, by decide⟩

/-- Helper: on a fully successful iteration, draw_frame returns ok,
reuses the slot and advances the frame counter modulo
`max_frames_in_flight`. -/
theorem draw_frame_success_eq (env : FrameEnv) (s : AppFrameState)
    (h : frame_success_env env) (hr : s.framebuffer_resized = false) :
    draw_frame env s =
      ⟨Except.ok (), false, true,
        ⟨(s.frame_index + 1) % max_frames_in_flight, false⟩⟩ := by
  obtain ⟨hf, ha, h3, h4, h5, h6, hp⟩ := h
  obtain ⟨f, a, ii, r1, r2, r3, r4, p, re⟩ := env
  dsimp only at hf ha h3 h4 h5 h6 hp
  subst hf h3 h4 h5 h6 hp
  obtain ⟨fi, fr⟩ := s
  dsimp only at hr
  subst hr
  rcases ha with ha | ha <;> subst ha <;> simp [draw_frame]

/-- C2 (amended): the frame counter is advanced only at the end of fully
successful iterations (successful present, no recreation): each such
iteration returns ok and maps `frame_index` to
`(frame_index + 1) % max_frames_in_flight`, so after `N = 2` fully
successful draw_frame iterations the counter returns to its initial
value; and a slot's resources are reused in an iteration only after the
wait on that slot's in-flight fence returned success. -/
theorem draw_frame_rotation_spec (env1 env2 : FrameEnv)
    (s : AppFrameState)
    (h1 : frame_success_env env1) (h2 : frame_success_env env2)
    (hr : s.framebuffer_resized = false)
    (hlt : s.frame_index < max_frames_in_flight) :
    ((draw_frame env1 s).result = Except.ok () ∧
      (draw_frame env1 s).state.frame_index =
        (s.frame_index + 1) % max_frames_in_flight ∧
      (draw_frame env2 (draw_frame env1 s).state).state.frame_index =
        s.frame_index) ∧
    (∀ (e : FrameEnv) (st : AppFrameState),
      (draw_frame e st).slot_reused = true →
      e.fence_wait_result = VkResult.eSuccess) := by
  constructor
  · rw [draw_frame_success_eq env1 s h1 hr]
    rw [draw_frame_success_eq env2
      ⟨(s.frame_index + 1) % max_frames_in_flight, false⟩ h2 rfl]
    refine ⟨rfl, rfl, ?_⟩
    show ((s.frame_index + 1) % max_frames_in_flight + 1)
        % max_frames_in_flight = s.frame_index
    unfold max_frames_in_flight at hlt ⊢
    omega
  · intro e st hreuse
    by_contra hne
    unfold draw_frame at hreuse
    rw [if_pos hne] at hreuse
    simp at hreuse

/-- Witness for `draw_frame_rotation_spec`: two all-success iterations
from the initial state. -/
theorem draw_frame_rotation_spec_witness :
    ((draw_frame all_success_frame_env initial_frame_state).result
        = Except.ok () ∧
      (draw_frame all_success_frame_env
          initial_frame_state).state.frame_index =
        (initial_frame_state.frame_index + 1) % max_frames_in_flight ∧
      (draw_frame all_success_frame_env
          (draw_frame all_success_frame_env
            initial_frame_state).state).state.frame_index =
        initial_frame_state.frame_index) ∧
    (∀ (e : FrameEnv) (st : AppFrameState),
      (draw_frame e st).slot_reused = true →
      e.fence_wait_result = VkResult.eSuccess) :=
  draw_frame_rotation_spec all_success_frame_env all_success_frame_env
    initial_frame_state ⟨rfl, Or.inl rfl, rfl, rfl, rfl, rfl, rfl⟩
    ⟨rfl, Or.inl rfl, rfl, rfl, rfl, rfl, rfl⟩ rfl (by decide)

end VkTutorial
